import Mathlib

/-!
# Verification of the ctxlib context-database server

Shallow embedding of the repository's two FastAPI servers:

* `server2.py` — the vector-index service: dynamic model generation
  (`generate_and_get_data_model`), the `/index_data` endpoint (`index_data`)
  and the `/search` endpoint (`search`).  The module-level mutable state
  (`database.db`, Python's `sys.modules` cache for the generated
  `dynamic_model` module) is threaded explicitly as a `ServerState`.
* `server.py` — the namespace/workspace/repository directory CRUD:
  `DirectoryManager.remove_dir` over an explicit filesystem model and the
  three delete endpoints.

External collaborators (the `datamodel_code_generator` parser, the
sentence-transformer `encode`, pydantic's `parse_raw`) are not repository
code; they enter the model as components of an `Ext` record of function
parameters, so every theorem quantifying over `Ext` holds for every possible
behaviour of those libraries.  Vector components are modelled as integers;
ranking by Euclidean distance coincides with ranking by the (exact) squared
Euclidean distance used here.
-/

namespace Ctxlib

/-- Embedding vectors (`List[float]` in the source, modelled with exact
integer components; the ordering by Euclidean distance is the ordering by
squared distance). -/
abbrev Vec := List Int

/-- A record of the dynamically generated `DataModel` class: the fields the
core reads (`text`, `embedding`).  The remaining optional fields of the
generated class (`id`, `url`, `bytes_`) are never read by the server code. -/
structure Record where
  text : String
  embedding : Vec
deriving DecidableEq, Repr

/-- The dynamically generated model class, identified by the
(json_schema, base_class) pair its source code was generated from. -/
structure GenModel where
  schema : String
  baseClass : String
deriving DecidableEq, Repr

/-- Error kinds of `server2.py`, one per `raise HTTPException` site, plus the
`IndexError` escaping from `results[0]`, plus the spec's `UnknownBaseShape`
(which the code never produces — kept in the taxonomy so that absence is a
statable fact). -/
inductive ErrKind where
  /-- "Failed to initialize JsonSchemaParser" (status 500). -/
  | parserInitFailed
  /-- "Failed to parse schema" (status 500). -/
  | parseFailed
  /-- "Failed to index the data" (status 500). -/
  | indexDataFailed
  /-- "Database not initialized." (status 500). -/
  | dbNotInitialized
  /-- "Failed to retrieve context" (status 500): `db.find` raised. -/
  | findFailed
  /-- `results[0]` on an empty result list raises `IndexError`. -/
  | indexOutOfRange
  /-- Uncaught: executing the generated module's import line (the `base_class`
  module path copied into the generated code) raises `ModuleNotFoundError`;
  Python removes the half-initialized module from `sys.modules` again. -/
  | moduleNotFoundError
  /-- Uncaught: `getattr(dynamic_model_module, 'DataModel')` raises
  `AttributeError` when the generated module lacks that attribute — after the
  module has been cached in `sys.modules`. -/
  | attributeError
  /-- The spec's materialization-time base-shape validation error. -/
  | unknownBaseShape
deriving DecidableEq, Repr

/-- The module-level mutable state of `server2.py`: `database.db` (initially
`None`; when set, the index's stored records in insertion order) and Python's
`sys.modules` entry for the `dynamic_model` module created by the first
successful `importlib.import_module("dynamic_model")`. -/
structure ServerState where
  db : Option (List Record)
  moduleCache : Option GenModel
deriving DecidableEq, Repr

/-- The initial process state: `database.db = None`, no module imported. -/
def initState : ServerState := ⟨none, none⟩

/-- External (non-repository) collaborators as opaque function parameters:
`JsonSchemaParser.__init__` success, `parser.parse()` success, whether
executing the module generated from a (schema, base_class) pair succeeds
(false = `ModuleNotFoundError` from its import line; a failed temporary-file
write is subsumed here, as it likewise aborts uncaught before anything is
cached), whether that generated module defines a `DataModel` attribute, the
sentence-transformer `encode`, and `DataModel.parse_raw` (`none` = raises). -/
structure Ext where
  parserInitOk : String → String → Bool
  parseOk : String → String → Bool
  importOk : String → String → Bool
  hasDataModel : String → String → Bool
  encode : String → Vec
  parseRaw : GenModel → String → Option Record

/-- `generate_and_get_data_model(json_schema, base_class)` of `server2.py`
(lines 26–48), restricted to external behaviours on which the temporary-file
write, the execution of the generated module and the `getattr(module,
'DataModel')` lookup all succeed — the endpoint theorems below use this
definition on exactly that path, where the restriction is faithful; the
unrestricted model carrying the uncaught failure paths of lines 37–48 is
`generate_and_get_data_model_full`, and `generate_full_agrees` proves the two
coincide on import-benign behaviours.  Parser construction and parsing may
fail (each caught and re-raised as an HTTP 500).  On success the generated
code is written to a fresh temporary directory under the fixed file name
`dynamic_model.py`, the directory is appended to `sys.path`, and
`importlib.import_module("dynamic_model")` is called: Python's module cache
returns the module of the FIRST successful import for every later call, so
the freshly written file is only loaded when no `dynamic_model` module is
cached yet.  (The appended `sys.path` entries are unobservable in this model
and omitted.) -/
def generate_and_get_data_model (ext : Ext) (json_schema base_class : String)
    (st : ServerState) : Except ErrKind GenModel × ServerState :=
  if ¬ ext.parserInitOk json_schema base_class then (.error .parserInitFailed, st)
  else if ¬ ext.parseOk json_schema base_class then (.error .parseFailed, st)
  else
    match st.moduleCache with
    | some m => (.ok m, st)
    | none =>
        (.ok ⟨json_schema, base_class⟩,
          { st with moduleCache := some ⟨json_schema, base_class⟩ })

/-- `generate_and_get_data_model` of `server2.py` (lines 26–48) with ALL of
its failure paths.  Beyond the two caught parser errors, the code from line
37 on runs outside any `try`: on a cache miss, executing the freshly written
module can raise an uncaught `ModuleNotFoundError` (e.g. a dotted but bogus
`base_class` copied into the generated import line) — Python then removes the
half-initialized entry from `sys.modules`, leaving the state unchanged; when
the import succeeds the module IS cached, and `getattr(module, 'DataModel')`
can still raise an uncaught `AttributeError` (a schema whose generated class
is not named `DataModel`), a failure that leaves the freshly cached module
behind.  On a cache hit no code is executed, but the `getattr` on the cached
module can likewise raise. -/
def generate_and_get_data_model_full (ext : Ext) (json_schema base_class : String)
    (st : ServerState) : Except ErrKind GenModel × ServerState :=
  if ¬ ext.parserInitOk json_schema base_class then (.error .parserInitFailed, st)
  else if ¬ ext.parseOk json_schema base_class then (.error .parseFailed, st)
  else
    match st.moduleCache with
    | some m =>
        if ext.hasDataModel m.schema m.baseClass then (.ok m, st)
        else (.error .attributeError, st)
    | none =>
        if ¬ ext.importOk json_schema base_class then (.error .moduleNotFoundError, st)
        else
          let st2 : ServerState :=
            { st with moduleCache := some ⟨json_schema, base_class⟩ }
          if ext.hasDataModel json_schema base_class then
            (.ok ⟨json_schema, base_class⟩, st2)
          else (.error .attributeError, st2)

/-- Squared Euclidean distance between two vectors (componentwise over the
common length, as the raw vector components). -/
def sqDist (u v : Vec) : Int :=
  ((List.zip u v).map (fun p => (p.1 - p.2) * (p.1 - p.2))).sum

/-- Ranking preorder of search results: by distance to the query `q`,
ascending, with ties broken by ascending insertion position (the `Nat`
component). -/
def rankLe (q : Vec) (a b : Nat × Record) : Prop :=
  sqDist a.2.embedding q < sqDist b.2.embedding q ∨
    (sqDist a.2.embedding q = sqDist b.2.embedding q ∧ a.1 ≤ b.1)

instance (q : Vec) : DecidableRel (rankLe q) := fun a b => by
  unfold rankLe; infer_instance

instance (q : Vec) : IsTotal (Nat × Record) (rankLe q) := by
  constructor
  intro a b
  rcases lt_trichotomy (sqDist a.2.embedding q) (sqDist b.2.embedding q) with h | h | h
  · exact Or.inl (Or.inl h)
  · rcases Nat.le_total a.1 b.1 with hi | hi
    · exact Or.inl (Or.inr ⟨h, hi⟩)
    · exact Or.inr (Or.inr ⟨h.symm, hi⟩)
  · exact Or.inr (Or.inl h)

instance (q : Vec) : IsTrans (Nat × Record) (rankLe q) := by
  constructor
  intro a b c hab hbc
  rcases hab with h1 | ⟨h1, i1⟩ <;> rcases hbc with h2 | ⟨h2, i2⟩
  · exact Or.inl (h1.trans h2)
  · exact Or.inl (h2 ▸ h1)
  · exact Or.inl (h1 ▸ h2)
  · exact Or.inr ⟨h1.trans h2, i1.trans i2⟩

/-- Modelled from the spec: the docarray `InMemoryExactNNIndex.find` called by
`server2.py` is library code absent from this repository; per the spec it is
exact top-`k` nearest-neighbour search — every stored record is compared to
the query, results ascend by distance with ties broken by ascending insertion
order, and at most `limit` records are returned. -/
def findTopK (q : Vec) (k : Nat) (recs : List Record) : List Record :=
  ((List.insertionSort (rankLe q) recs.enum).map Prod.snd).take k

/-- `index_data` of `server2.py` (lines 56–70), the `/index_data` endpoint.
Inside the `try` block the code FIRST replaces `database.db` with a brand-new
empty index, THEN parses the payload, overwrites its `embedding` with
`encode(data.text)` and indexes it; a parse failure therefore leaves the
fresh empty index in place.  (The dead `if DataModel is None` branch is
unreachable: `getattr` returns the class or raises.) -/
def index_data (ext : Ext) (json_schema base_class data : String)
    (st : ServerState) : Except ErrKind Bool × ServerState :=
  match generate_and_get_data_model ext json_schema base_class st with
  | (.error e, st1) => (.error e, st1)
  | (.ok m, st1) =>
      let st2 : ServerState := { st1 with db := some [] }
      match ext.parseRaw m data with
      | none => (.error .indexDataFailed, st2)
      | some r =>
          let r2 : Record := { r with embedding := ext.encode r.text }
          (.ok true, { st2 with db := some [r2] })

/-- `search` of `server2.py` (lines 79–96), the `/search` endpoint.  It
regenerates the model, builds the query with `embedding=encode(query)`,
errors when `database.db` is still `None`, calls `db.find(..., limit=top_k)`,
and returns `results[0].json()` — the serialization of the single first
result; on an empty result list `results[0]` raises `IndexError`.  The JSON
serialization is the boundary encoding, so the success value is the record
itself. -/
def search (ext : Ext) (json_schema base_class query : String) (top_k : Nat)
    (st : ServerState) : Except ErrKind Record × ServerState :=
  match generate_and_get_data_model ext json_schema base_class st with
  | (.error e, st1) => (.error e, st1)
  | (.ok _, st1) =>
      match st1.db with
      | none => (.error .dbNotInitialized, st1)
      | some recs =>
          match findTopK (ext.encode query) top_k recs with
          | [] => (.error .indexOutOfRange, st1)
          | r :: _ => (.ok r, st1)

/-- Number of records carried by a `/search` response: one on success
(`results[0].json()` is a single serialized record), none on error. -/
def responseCount : Except ErrKind Record → Nat
  | .ok _ => 1
  | .error _ => 0

/-! ## `server.py`: the directory CRUD -/

/-- A filesystem path, as its list of components. -/
abbrev DirPath := List String

/-- The filesystem the `DirectoryManager` operates on, as the list of
existing directories (the repository stores nothing but directories along the
`namespaces/…/workspaces/…/repositories/…` hierarchy). -/
structure Fs where
  dirs : List DirPath
deriving DecidableEq, Repr

/-- `under p q`: `q` lies strictly below directory `p`. -/
def under : DirPath → DirPath → Bool
  | [], [] => false
  | [], _ :: _ => true
  | _ :: _, [] => false
  | a :: as, b :: bs => a == b && under as bs

/-- Whether directory `p` has at least one entry below it. -/
def hasChild (fs : Fs) (p : DirPath) : Bool :=
  fs.dirs.any (fun q => under p q)

/-- Modelled from `pathlib.Path.rmdir`'s documented behaviour (library code,
not in this repository): removes the directory only when it exists and is
empty; raises `OSError` (here `none`) when it is missing or non-empty. -/
def rmdir (fs : Fs) (p : DirPath) : Option Fs :=
  if p ∈ fs.dirs then
    if hasChild fs p then none
    else some ⟨fs.dirs.filter (fun q => ¬ q == p)⟩
  else none

/-- `DirectoryManager.remove_dir` of `server.py` (lines 68–75): calls
`Path(path).rmdir()`, returns `True` on success and catches any exception,
printing it and returning `False` with the filesystem untouched. -/
def remove_dir (fs : Fs) (p : DirPath) : Bool × Fs :=
  match rmdir fs p with
  | some fs2 => (true, fs2)
  | none => (false, fs)

/-- Error kinds of the `server.py` delete endpoints (`raise HTTPException`
with status 500). -/
inductive SrvErr where
  | deleteNamespaceFailed
  | deleteWorkspaceFailed
  | deleteRepositoryFailed
deriving DecidableEq, Repr

/-- Directory of a namespace: `namespaces/{namespace}`. -/
def nsPath (ns : String) : DirPath := ["namespaces", ns]

/-- Directory of a workspace: `namespaces/{ns}/workspaces/{ws}`. -/
def wsPath (ns ws : String) : DirPath := ["namespaces", ns, "workspaces", ws]

/-- Directory of a repository:
`namespaces/{ns}/workspaces/{ws}/repositories/{rp}`. -/
def repoPath (ns ws rp : String) : DirPath :=
  ["namespaces", ns, "workspaces", ws, "repositories", rp]

/-- `delete_namespace` of `server.py` (lines 109–115): removes the directory
and raises HTTP 500 when `remove_dir` reports failure. -/
def delete_namespace (fs : Fs) (ns : String) : Except SrvErr Bool × Fs :=
  let res := remove_dir fs (nsPath ns)
  if res.1 then (.ok true, res.2) else (.error .deleteNamespaceFailed, res.2)

/-- `delete_workspace` of `server.py`. -/
def delete_workspace (fs : Fs) (ns ws : String) : Except SrvErr Bool × Fs :=
  let res := remove_dir fs (wsPath ns ws)
  if res.1 then (.ok true, res.2) else (.error .deleteWorkspaceFailed, res.2)

/-- `delete_repository` of `server.py`. -/
def delete_repository (fs : Fs) (ns ws rp : String) : Except SrvErr Bool × Fs :=
  let res := remove_dir fs (repoPath ns ws rp)
  if res.1 then (.ok true, res.2) else (.error .deleteRepositoryFailed, res.2)

/-! ## Helper lemmas -/

theorem rankLe_refl (q : Vec) (a : Nat × Record) : rankLe q a a :=
  Or.inr ⟨rfl, le_refl _⟩

theorem snd_mem_of_mem_enum {α : Type} {x : Nat × α} {l : List α}
    (h : x ∈ l.enum) : x.2 ∈ l :=
  List.getElem?_mem (List.mem_enum_iff_getElem?.mp h)

/-- On external behaviours whose generated-module execution and `DataModel`
attribute lookup always succeed, the full model of
`generate_and_get_data_model` coincides with the restricted one used by the
endpoint models. -/
theorem generate_full_agrees (ext : Ext) (js bc : String) (st : ServerState)
    (himp : ∀ a b, ext.importOk a b = true)
    (hdm : ∀ a b, ext.hasDataModel a b = true) :
    generate_and_get_data_model_full ext js bc st
      = generate_and_get_data_model ext js bc st := by
  unfold generate_and_get_data_model_full generate_and_get_data_model
  by_cases h1 : ext.parserInitOk js bc = true <;>
    by_cases h2 : ext.parseOk js bc = true <;>
      simp [h1, h2]
  cases hc : st.moduleCache with
  | some m => simp [hdm m.schema m.baseClass]
  | none => simp [himp js bc, hdm js bc]

/-- On success, the returned class is exactly the one held in the module
cache afterwards, and `database.db` is untouched. -/
theorem generate_ok_cache (ext : Ext) (js bc : String) (st st2 : ServerState)
    (m : GenModel) (h : generate_and_get_data_model ext js bc st = (.ok m, st2)) :
    st2.moduleCache = some m ∧ st2.db = st.db := by
  unfold generate_and_get_data_model at h
  by_cases h1 : ext.parserInitOk js bc <;>
    by_cases h2 : ext.parseOk js bc <;>
      simp [h1, h2] at h
  cases hc : st.moduleCache with
  | none => simp [hc] at h; cases h.2; exact ⟨by simp [h.1], rfl⟩
  | some m0 => simp [hc] at h; cases h.2; exact ⟨h.1 ▸ hc, rfl⟩

/-- When both parser stages succeed, generation succeeds. -/
theorem generate_ok_exists (ext : Ext) (js bc : String) (st : ServerState)
    (h1 : ext.parserInitOk js bc = true) (h2 : ext.parseOk js bc = true) :
    ∃ m st2, generate_and_get_data_model ext js bc st = (.ok m, st2) := by
  unfold generate_and_get_data_model
  cases hc : st.moduleCache <;> simp [h1, h2, hc]

/-- A non-empty index searched with `limit ≥ 1` yields a head result that is
least in the ranking order among all stored (position, record) pairs. -/
theorem findTopK_head (q : Vec) (k : Nat) (recs : List Record) (r : Record)
    (rest : List Record) (h : findTopK q k recs = r :: rest) :
    ∃ ir ∈ recs.enum, ir.2 = r ∧ ∀ jr ∈ recs.enum, rankLe q ir jr := by
  unfold findTopK at h
  cases hs : List.insertionSort (rankLe q) recs.enum with
  | nil => rw [hs] at h; simp at h
  | cons x xs =>
      rw [hs] at h
      have hperm : List.Perm (List.insertionSort (rankLe q) recs.enum) recs.enum :=
        List.perm_insertionSort (rankLe q) recs.enum
      have hxmem : x ∈ recs.enum := hperm.mem_iff.mp (by rw [hs]; simp)
      have hsorted : List.Sorted (rankLe q) (x :: xs) := by
        rw [← hs]; exact List.sorted_insertionSort (rankLe q) recs.enum
      have hx2 : x.2 = r := by
        cases k with
        | zero => simp at h
        | succ n => simp at h; exact h.1
      refine ⟨x, hxmem, hx2, ?_⟩
      intro jr hjr
      have hjx : jr ∈ x :: xs := by rw [← hs]; exact hperm.mem_iff.mpr hjr
      rcases List.mem_cons.mp hjx with heq | hmem
      · rw [heq]; exact rankLe_refl q x
      · exact (List.sorted_cons.mp hsorted).1 jr hmem

/-- `findTopK` on a non-empty index with `limit ≥ 1` is non-empty. -/
theorem findTopK_ne_nil (q : Vec) (k : Nat) (recs : List Record)
    (hne : recs ≠ []) (hk : 1 ≤ k) : findTopK q k recs ≠ [] := by
  unfold findTopK
  intro h
  have hlen : (List.insertionSort (rankLe q) recs.enum).length = recs.length := by
    rw [List.length_insertionSort, List.enum_length]
  cases hs : List.insertionSort (rankLe q) recs.enum with
  | nil =>
      rw [hs] at hlen
      exact hne (List.length_eq_zero.mp hlen.symm)
  | cons x xs =>
      rw [hs] at h
      cases k with
      | zero => omega
      | succ n => simp at h

/-- A successful `search`: with a working parser, an initialized non-empty
index and `top_k ≥ 1`, the endpoint returns the single ranking-least stored
record, and `database.db` is not modified. -/
theorem search_ok (ext : Ext) (js bc query : String) (k : Nat)
    (st : ServerState) (recs : List Record)
    (h1 : ext.parserInitOk js bc = true) (h2 : ext.parseOk js bc = true)
    (hdb : st.db = some recs) (hne : recs ≠ []) (hk : 1 ≤ k) :
    ∃ ir ∈ recs.enum, ∃ st2,
      search ext js bc query k st = (.ok ir.2, st2) ∧ st2.db = some recs ∧
      ∀ jr ∈ recs.enum, rankLe (ext.encode query) ir jr := by
  obtain ⟨m, st2, hgen⟩ := generate_ok_exists ext js bc st h1 h2
  have hdb2 : st2.db = some recs :=
    (generate_ok_cache ext js bc st st2 m hgen).2.trans hdb
  unfold search
  simp only [hgen, hdb2]
  cases hf : findTopK (ext.encode query) k recs with
  | nil => exact absurd hf (findTopK_ne_nil _ _ _ hne hk)
  | cons r rest =>
      simp only [hf]
      obtain ⟨ir, hmem, hir2, hmin⟩ := findTopK_head _ _ _ _ _ hf
      exact ⟨ir, hmem, st2, by rw [hir2], hdb2, hmin⟩

/-- When generation succeeds, both parser stages succeeded. -/
theorem generate_ok_inputs (ext : Ext) (js bc : String) (st st1 : ServerState)
    (m : GenModel) (h : generate_and_get_data_model ext js bc st = (.ok m, st1)) :
    ext.parserInitOk js bc = true ∧ ext.parseOk js bc = true := by
  unfold generate_and_get_data_model at h
  by_cases h1 : ext.parserInitOk js bc = true <;>
    by_cases h2 : ext.parseOk js bc = true <;>
      simp [h1, h2] at h ⊢

/-- Removing a directory that still has an entry below it fails and leaves
the filesystem untouched (`Path.rmdir` raises, `remove_dir` returns `False`). -/
theorem remove_dir_nonempty (fs : Fs) (p : DirPath)
    (h : hasChild fs p = true) : remove_dir fs p = (false, fs) := by
  unfold remove_dir rmdir
  by_cases hm : p ∈ fs.dirs <;> simp [hm, h]

instance {ε α : Type} [DecidableEq ε] [DecidableEq α] : DecidableEq (Except ε α)
  | .error e, .error f =>
      if h : e = f then .isTrue (by rw [h])
      else .isFalse (by intro hc; cases hc; exact h rfl)
  | .error _, .ok _ => .isFalse (by intro hc; cases hc)
  | .ok _, .error _ => .isFalse (by intro hc; cases hc)
  | .ok a, .ok b =>
      if h : a = b then .isTrue (by rw [h])
      else .isFalse (by intro hc; cases hc; exact h rfl)

/-! ## Concrete instantiations of the external collaborators -/

/-- A concrete behaviour of the external libraries, for the concrete
evaluations below: both parser stages always succeed (as
`datamodel_code_generator` does on a well-formed schema with any `base_class`
string — it performs no base-shape membership check), the generated module
imports cleanly and defines `DataModel`, `encode` maps a text to the
one-component vector of its length, and `parse_raw` decodes any payload
other than `"bad"` into a record whose `text` is the payload and whose
caller-supplied embedding is `[99]`. -/
def extA : Ext :=
  ⟨fun _ _ => true, fun _ _ => true, fun _ _ => true, fun _ _ => true,
   fun s => [Int.ofNat s.length],
   fun _ s => if s = "bad" then none else some ⟨s, [99]⟩⟩

/-- The directory tree shipped in the repository
(`namespaces/root/workspaces/default/repositories/main/models`). -/
def fsRepo : Fs :=
  ⟨[["namespaces"],
    ["namespaces", "root"],
    ["namespaces", "root", "workspaces"],
    ["namespaces", "root", "workspaces", "default"],
    ["namespaces", "root", "workspaces", "default", "repositories"],
    ["namespaces", "root", "workspaces", "default", "repositories", "main"],
    ["namespaces", "root", "workspaces", "default", "repositories", "main", "models"]]⟩

/-! ## Claims -/

/-- C1: the claim says the index persists across operations — after
`insert(r1); insert(r2)` both records are stored in insertion order.  The
code instead executes `database.db = InMemoryExactNNIndex[DataModel]()` at
the start of every `/index_data` request: evaluating two successive inserts
from the initial state shows the first stored record (`"r1"` with embedding
`encode "r1" = [2]`) is destroyed, the index afterwards holding only the
second insert's record. -/
theorem c1_index_reset_on_every_insert :
    (index_data extA "S" "B" "r1" initState).2.db = some [⟨"r1", [2]⟩] ∧
    (index_data extA "S" "B" "r2"
        (index_data extA "S" "B" "r1" initState).2).2.db = some [⟨"r2", [2]⟩] ∧
    (⟨"r1", [2]⟩ : Record) ∉ [(⟨"r2", [2]⟩ : Record)] := by decide

/-- C2 (amended): `search` returns to the caller only the single stored
record that is least in the ranking (smallest distance to the encoded query,
ties broken by earliest insertion position) — the ordered `k`-sequence never
reaches the caller. -/
theorem c2_search_returns_single_closest (ext : Ext) (js bc query : String)
    (k : Nat) (st : ServerState) (recs : List Record)
    (h1 : ext.parserInitOk js bc = true) (h2 : ext.parseOk js bc = true)
    (hdb : st.db = some recs) (hne : recs ≠ []) (hk : 1 ≤ k) :
    ∃ ir ∈ recs.enum, ∃ st2,
      search ext js bc query k st = (.ok ir.2, st2) ∧ ir.2 ∈ recs ∧
      ∀ jr ∈ recs.enum,
        sqDist ir.2.embedding (ext.encode query) ≤
            sqDist jr.2.embedding (ext.encode query) ∧
          (sqDist ir.2.embedding (ext.encode query) =
              sqDist jr.2.embedding (ext.encode query) → ir.1 ≤ jr.1) := by
  obtain ⟨ir, hmem, st2, heq, _, hmin⟩ :=
    search_ok ext js bc query k st recs h1 h2 hdb hne hk
  refine ⟨ir, hmem, st2, heq, snd_mem_of_mem_enum hmem, ?_⟩
  intro jr hjr
  rcases hmin jr hjr with hlt | ⟨hd, hi⟩
  · exact ⟨le_of_lt hlt, fun hc => absurd (hc ▸ hlt) (lt_irrefl _)⟩
  · exact ⟨le_of_eq hd, fun _ => hi⟩

/-- Witness for C2's amended theorem at a concrete input: a two-record index
searched with `top_k = 1`. -/
theorem c2_search_returns_single_closest_witness :
    ∃ ir ∈ ([⟨"a", [0]⟩, ⟨"b", [1]⟩] : List Record).enum, ∃ st2,
      search extA "S" "B" "q" 1
          ⟨some [⟨"a", [0]⟩, ⟨"b", [1]⟩], some ⟨"S", "B"⟩⟩ = (.ok ir.2, st2) ∧
      ir.2 ∈ ([⟨"a", [0]⟩, ⟨"b", [1]⟩] : List Record) ∧
      ∀ jr ∈ ([⟨"a", [0]⟩, ⟨"b", [1]⟩] : List Record).enum,
        sqDist ir.2.embedding (extA.encode "q") ≤
            sqDist jr.2.embedding (extA.encode "q") ∧
          (sqDist ir.2.embedding (extA.encode "q") =
              sqDist jr.2.embedding (extA.encode "q") → ir.1 ≤ jr.1) :=
  c2_search_returns_single_closest extA "S" "B" "q" 1
    ⟨some [⟨"a", [0]⟩, ⟨"b", [1]⟩], some ⟨"S", "B"⟩⟩
    [⟨"a", [0]⟩, ⟨"b", [1]⟩] rfl rfl rfl (by decide) (by decide)

/-- C2 counterexample: with two stored records and `limit = 2` the spec-side
top-2 sequence has two distinct records, yet the endpoint's response is the
single closest record — not the ordered 2-sequence the claim requires. -/
theorem c2_counterexample :
    findTopK (extA.encode "q") 2 [⟨"a", [0]⟩, ⟨"b", [1]⟩]
        = [⟨"b", [1]⟩, ⟨"a", [0]⟩] ∧
    (search extA "S" "B" "q" 2
        ⟨some [⟨"a", [0]⟩, ⟨"b", [1]⟩], some ⟨"S", "B"⟩⟩).1 = .ok ⟨"b", [1]⟩ ∧
    (⟨"a", [0]⟩ : Record) ≠ ⟨"b", [1]⟩ := by decide

/-- C3 (amended): whenever the parser succeeds, the index is initialized and
non-empty and `top_k ≥ 1`, the `/search` response carries exactly one record
— never `min(k, n)` of them. -/
theorem c3_response_carries_one_record (ext : Ext) (js bc query : String)
    (k : Nat) (st : ServerState) (recs : List Record)
    (h1 : ext.parserInitOk js bc = true) (h2 : ext.parseOk js bc = true)
    (hdb : st.db = some recs) (hne : recs ≠ []) (hk : 1 ≤ k) :
    responseCount (search ext js bc query k st).1 = 1 := by
  obtain ⟨ir, _, st2, heq, _, _⟩ :=
    search_ok ext js bc query k st recs h1 h2 hdb hne hk
  rw [heq]
  rfl

/-- Witness for C3's amended theorem at a concrete input. -/
theorem c3_response_carries_one_record_witness :
    responseCount (search extA "S" "B" "qq" 2
        ⟨some [⟨"c", [0]⟩, ⟨"d", [5]⟩], some ⟨"S", "B"⟩⟩).1 = 1 :=
  c3_response_carries_one_record extA "S" "B" "qq" 2
    ⟨some [⟨"c", [0]⟩, ⟨"d", [5]⟩], some ⟨"S", "B"⟩⟩
    [⟨"c", [0]⟩, ⟨"d", [5]⟩] rfl rfl rfl (by decide) (by decide)

/-- C3 counterexample: two stored records, `limit = 2`: the claim requires a
result of length `min(2, 2) = 2`, but the response carries one record. -/
theorem c3_counterexample :
    responseCount (search extA "S" "B" "qq" 2
        ⟨some [⟨"c", [0]⟩, ⟨"d", [5]⟩], some ⟨"S", "B"⟩⟩).1 = 1 ∧
    min 2 ([⟨"c", [0]⟩, ⟨"d", [5]⟩] : List Record).length = 2 ∧
    (1 : Nat) ≠ 2 := by decide

/-- C4 (amended): searching before any insert has initialized `database.db`
raises "Database not initialized." (HTTP 500), and searching an initialized
but empty index raises the `IndexError` from `results[0]` — an empty result
is never returned to the caller. -/
theorem c4_empty_search_errors (ext : Ext) (js bc query : String) (k : Nat)
    (st : ServerState)
    (h1 : ext.parserInitOk js bc = true) (h2 : ext.parseOk js bc = true) :
    (st.db = none → (search ext js bc query k st).1 = .error .dbNotInitialized) ∧
    (st.db = some [] → (search ext js bc query k st).1 = .error .indexOutOfRange) := by
  obtain ⟨m, st2, hgen⟩ := generate_ok_exists ext js bc st h1 h2
  have hpres := (generate_ok_cache ext js bc st st2 m hgen).2
  constructor
  · intro hdb
    unfold search
    simp only [hgen, hpres.trans hdb]
  · intro hdb
    unfold search
    simp only [hgen, hpres.trans hdb]
    simp [findTopK]

/-- Witness for C4's amended theorem: the initial process state (`db = None`)
with `limit = 5`. -/
theorem c4_empty_search_errors_witness :
    (search extA "S" "B" "q" 5 initState).1 = .error .dbNotInitialized :=
  (c4_empty_search_errors extA "S" "B" "q" 5 initState rfl rfl).1 rfl

/-- C4 counterexample: on an index on which no insert has succeeded
(`db = None`) and on an initialized empty index, `search` with `limit = 5`
fails with an error rather than returning an empty ordered result. -/
theorem c4_counterexample :
    (search extA "S" "B" "q" 5 initState).1 = .error .dbNotInitialized ∧
    (search extA "S" "B" "q" 5 ⟨some [], some ⟨"S", "B"⟩⟩).1
      = .error .indexOutOfRange := by decide

/-- C5 (amended): materialization performs no base-shape membership
validation — over the full model of `generate_and_get_data_model`, with every
one of its failure paths (the two caught parser errors and the uncaught
module-import and `getattr` failures of lines 37–48), no call, for any
external behaviour, schema, base-shape string or process state, ever fails
with `UnknownBaseShape`; an unrecognized base shape is not rejected as
such. -/
theorem c5_no_base_shape_validation (ext : Ext) (js bc : String)
    (st : ServerState) :
    (generate_and_get_data_model_full ext js bc st).1
      ≠ .error .unknownBaseShape := by
  unfold generate_and_get_data_model_full
  by_cases h1 : ext.parserInitOk js bc = true <;>
    by_cases h2 : ext.parseOk js bc = true <;>
      simp [h1, h2]
  cases hc : st.moduleCache with
  | some m =>
      by_cases hd : ext.hasDataModel m.schema m.baseClass = true <;> simp [hd]
  | none =>
      by_cases hi : ext.importOk js bc = true <;>
        by_cases hd : ext.hasDataModel js bc = true <;> simp [hi, hd]

/-- C5 counterexample: with the spec's own scenario input
`baseShapeName = "unknown_shape"` and external behaviour that accepts it (as
`datamodel_code_generator` does — `base_class` is copied into the generated
code, never checked against a recognized set), materialization SUCCEEDS even
on the full model; it does not fail with `UnknownBaseShape`. -/
theorem c5_counterexample :
    (generate_and_get_data_model_full extA "S" "unknown_shape" initState).1
        = .ok ⟨"S", "unknown_shape"⟩ ∧
    (generate_and_get_data_model_full extA "S" "unknown_shape" initState).1
        ≠ .error .unknownBaseShape := by decide

/-- C6: a second materialize call with the same (schema, base shape) as an
earlier successful one returns the identical generated class and leaves the
state unchanged — so records materialized from equivalent schema submissions
are index-compatible.  (The identity comes from Python's module cache for
`dynamic_model`, not from a fingerprint lookup, but the claimed observable
behaviour holds.) -/
theorem c6_equal_schema_same_instance (ext : Ext) (js bc : String)
    (st st1 : ServerState) (m : GenModel)
    (h : generate_and_get_data_model ext js bc st = (.ok m, st1)) :
    generate_and_get_data_model ext js bc st1 = (.ok m, st1) := by
  obtain ⟨h1, h2⟩ := generate_ok_inputs ext js bc st st1 m h
  have hc : st1.moduleCache = some m := (generate_ok_cache ext js bc st st1 m h).1
  unfold generate_and_get_data_model
  simp [h1, h2, hc]

/-- Witness for C6 at a concrete input: the first call from the initial
state, repeated. -/
theorem c6_equal_schema_same_instance_witness :
    generate_and_get_data_model extA "S" "B" ⟨none, some ⟨"S", "B"⟩⟩
      = (.ok ⟨"S", "B"⟩, ⟨none, some ⟨"S", "B"⟩⟩) :=
  c6_equal_schema_same_instance extA "S" "B" initState
    ⟨none, some ⟨"S", "B"⟩⟩ ⟨"S", "B"⟩ rfl

/-- C7: the claim says a failed insert leaves the index exactly as it was.
The code's `try` block first replaces `database.db` with a fresh empty index
and only then parses the payload: evaluating an insert whose payload fails to
parse, against a state whose index holds one record, shows the request errors
AND the index has been replaced by an empty one — the prior contents are
destroyed. -/
theorem c7_failed_insert_clobbers_index :
    (index_data extA "S" "B" "bad"
        ⟨some [⟨"r1", [2]⟩], some ⟨"S", "B"⟩⟩).1 = .error .indexDataFailed ∧
    (index_data extA "S" "B" "bad"
        ⟨some [⟨"r1", [2]⟩], some ⟨"S", "B"⟩⟩).2.db = some [] ∧
    some ([] : List Record) ≠ some [⟨"r1", [2]⟩] := by decide

/-- C8 (amended): the core produces embedding vectors itself — a successful
insert stores exactly one record, whose embedding is `encode` of its text
(the caller-supplied vector having been overwritten by
`data.embedding = encode(data.text)`). -/
theorem c8_insert_overwrites_embedding (ext : Ext) (js bc data : String)
    (st st2 : ServerState)
    (h : index_data ext js bc data st = (.ok true, st2)) :
    ∃ r : Record, st2.db = some [r] ∧ r.embedding = ext.encode r.text := by
  unfold index_data at h
  rcases hgen : generate_and_get_data_model ext js bc st with ⟨res, st1⟩
  rw [hgen] at h
  cases res with
  | error e => simp at h
  | ok m =>
      dsimp only at h
      rcases hpr : ext.parseRaw m data with _ | r
      · rw [hpr] at h; simp at h
      · rw [hpr] at h
        dsimp only at h
        simp only [Prod.mk.injEq] at h
        refine ⟨⟨r.text, ext.encode r.text⟩, ?_, rfl⟩
        rw [← h.2]

/-- Witness for C8's amended theorem at a concrete input. -/
theorem c8_insert_overwrites_embedding_witness :
    ∃ r : Record,
      (⟨some [⟨"r1", [2]⟩], some ⟨"S", "B"⟩⟩ : ServerState).db = some [r] ∧
      r.embedding = extA.encode r.text :=
  c8_insert_overwrites_embedding extA "S" "B" "r1" initState
    ⟨some [⟨"r1", [2]⟩], some ⟨"S", "B"⟩⟩ rfl

/-- C8 counterexample: the payload `"r1"` parses to a record whose
caller-supplied embedding is `[99]`, yet the stored record's vector is
`encode "r1" = [2]` — the stored vector is not the caller-supplied one. -/
theorem c8_counterexample :
    extA.parseRaw ⟨"S", "B"⟩ "r1" = some ⟨"r1", [99]⟩ ∧
    (index_data extA "S" "B" "r1" initState).2.db = some [⟨"r1", [2]⟩] ∧
    ([2] : Vec) ≠ [99] := by decide

/-- C9: once a first call has succeeded, every later successful
`generate_and_get_data_model` call — with ANY schema and base class — returns
the class of that first call and leaves the state unchanged: the generated
module always lands under the fixed name `dynamic_model`, and
`importlib.import_module` returns the module cached at first import. -/
theorem c9_module_cache_pins_first_model (ext : Ext)
    (js bc js2 bc2 : String) (st st1 st2 : ServerState) (m m2 : GenModel)
    (h : generate_and_get_data_model ext js bc st = (.ok m, st1))
    (h2 : generate_and_get_data_model ext js2 bc2 st1 = (.ok m2, st2)) :
    m2 = m ∧ st2 = st1 := by
  have hc : st1.moduleCache = some m := (generate_ok_cache ext js bc st st1 m h).1
  obtain ⟨i1, i2⟩ := generate_ok_inputs ext js2 bc2 st1 st2 m2 h2
  unfold generate_and_get_data_model at h2
  simp [i1, i2, hc] at h2
  exact ⟨h2.1.symm, h2.2.symm⟩

/-- Witness for C9 at a concrete input: a second call with a DIFFERENT
schema and base class still returns the first call's class. -/
theorem c9_module_cache_pins_first_model_witness :
    (⟨"S", "B"⟩ : GenModel) = ⟨"S", "B"⟩ ∧
    (⟨none, some ⟨"S", "B"⟩⟩ : ServerState) = ⟨none, some ⟨"S", "B"⟩⟩ :=
  c9_module_cache_pins_first_model extA "S" "B" "T2" "B2" initState
    ⟨none, some ⟨"S", "B"⟩⟩ ⟨none, some ⟨"S", "B"⟩⟩ ⟨"S", "B"⟩ ⟨"S", "B"⟩
    rfl rfl

/-- C10: deleting a namespace, workspace or repository whose directory still
has entries below it never removes it — `Path.rmdir` only deletes empty
directories, so the endpoint reports failure (HTTP 500) and the filesystem is
unchanged. -/
theorem c10_delete_nonempty_dir_fails (fs : Fs) (ns ws rp : String) :
    (hasChild fs (nsPath ns) = true →
      delete_namespace fs ns = (.error .deleteNamespaceFailed, fs)) ∧
    (hasChild fs (wsPath ns ws) = true →
      delete_workspace fs ns ws = (.error .deleteWorkspaceFailed, fs)) ∧
    (hasChild fs (repoPath ns ws rp) = true →
      delete_repository fs ns ws rp = (.error .deleteRepositoryFailed, fs)) := by
  refine ⟨fun h => ?_, fun h => ?_, fun h => ?_⟩ <;>
    simp [delete_namespace, delete_workspace, delete_repository,
      remove_dir_nonempty _ _ h]

/-- Witness for C10 at the repository's own shipped directory tree. -/
theorem c10_delete_nonempty_dir_fails_witness :
    delete_namespace fsRepo "root" = (.error .deleteNamespaceFailed, fsRepo) ∧
    delete_workspace fsRepo "root" "default"
      = (.error .deleteWorkspaceFailed, fsRepo) ∧
    delete_repository fsRepo "root" "default" "main"
      = (.error .deleteRepositoryFailed, fsRepo) := by
  obtain ⟨a, b, c⟩ := c10_delete_nonempty_dir_fails fsRepo "root" "default" "main"
  exact ⟨a (by decide), b (by decide), c (by decide)⟩

end Ctxlib
